import Mathlib

/-!
Shallow embedding of the archetype/column storage engine, the query/fetch
engine and the access conflict analysis of the `bevy_ecs`/`bevy_hecs` crates
(files `archetype.rs`, `query.rs`, `dynamic_query.rs`, `bundle.rs`, `soa.rs`,
`system/system.rs`, `system/query.rs`).

Modelling conventions:
- `Entity`, `TypeId`/`ComponentId` and component payloads are modelled as `Nat`
  (they are opaque row tags, process-stable identifiers and type-erased bytes).
- A Rust panic is modelled as `Except.error` with the panic message; a
  value-level Rust `Result::Err(e)` is modelled as `Except.error e` with the
  structured error type `e` (never a `String`), so the two error classes stay
  distinct in the embedding.
- `Vec<T>` is a `List`; `Vec` capacity and `reserve` are not observable through
  any claim (only lengths and contents are), so `reserve` is a no-op on lists.
-/

namespace BevyEcs

deriving instance DecidableEq for Except

/-- Entity handles are opaque row tags owned by the external allocator. -/
abbrev Entity := Nat

/-- Component type tags (`TypeId` / `ComponentId`) are process-stable ids. -/
abbrev TypeId := Nat

/-- Type-erased component payloads. -/
abbrev Value := Nat

/-- The list produced by `Vec::swap_remove(i)`: element `i` is replaced by the
last element and the last slot is popped.  Callers must have `i` in bounds. -/
def listSwapRemove (l : List α) (i : Nat) : List α :=
  match l.getLast? with
  | none => []
  | some x => (l.set i x).dropLast

/-- `Vec::swap_remove` including its out-of-bounds panic. -/
def vecSwapRemove (l : List α) (i : Nat) : Except String (List α) :=
  if i < l.length then .ok (listSwapRemove l i) else .error "swap_remove index out of bounds"

/-- `ComponentStorageMeta` from `archetype.rs`: the per-row change-detection
flag arrays of one column.  The `AtomicBorrow` counter lives in `borrow.rs`,
which is not part of the storage-mutation claims modelled here. -/
structure ComponentStorageMeta where
  mutated_entities : List Bool
  added_entities : List Bool
deriving Repr, DecidableEq, Inhabited

/-- `ComponentStorageMeta::allocate`: pushes a `false` entry on both flag
arrays (the fresh row starts neither added nor mutated). -/
def ComponentStorageMeta.allocate (m : ComponentStorageMeta) : ComponentStorageMeta :=
  { m with
    added_entities := m.added_entities ++ [false]
    mutated_entities := m.mutated_entities ++ [false] }

/-- `ComponentStorageMeta::clear_trackers`: resets every flag to `false`. -/
def ComponentStorageMeta.clear_trackers (m : ComponentStorageMeta) : ComponentStorageMeta :=
  { mutated_entities := m.mutated_entities.map fun _ => false
    added_entities := m.added_entities.map fun _ => false }

/-- One type-erased column (`VecComponentStorage` behind the
`ComponentStorage` trait): its configured `TypeId`, the backing vector and the
flag metadata. -/
structure ComponentStorage where
  ty : TypeId
  storage : List Value
  meta : ComponentStorageMeta
deriving Repr, DecidableEq, Inhabited

/-- `ComponentStorage::push`: append one value to the backing storage. -/
def ComponentStorage.push (s : ComponentStorage) (v : Value) : ComponentStorage :=
  { s with storage := s.storage ++ [v] }

/-- `ComponentStorage::swap_remove(index, forget)`: swap-removes the value.
`forget` only decides whether the removed value is dropped or leaked; it does
not change the resulting storage contents. -/
def ComponentStorage.swap_remove (s : ComponentStorage) (i : Nat) (_forget : Bool) :
    Except String ComponentStorage := do
  let st ← vecSwapRemove s.storage i
  pure { s with storage := st }

/-- A Group (`Archetype`): parallel `type_info`, entity array and columns.
`grow_size` only affects capacity reservation, which is not observable on
lists, but is kept to mirror the struct. -/
structure Archetype where
  type_info : List TypeId
  entities : List Entity
  grow_size : Nat
  component_storages : List ComponentStorage
deriving Repr, DecidableEq

/-- `Archetype::with_grow`: one fresh empty column per `TypeInfo`, in order.
The `type_indices` map is built by inserting every type in order (duplicates
overwrite, mirroring `HashMap::insert`); it is recomputed by
`Archetype.type_index_dynamic` below instead of being stored. -/
def Archetype.with_grow (type_info : List TypeId) (grow_size : Nat) : Archetype :=
  { type_info := type_info
    entities := []
    grow_size := grow_size
    component_storages :=
      type_info.map fun ty => { ty := ty, storage := [], meta := ⟨[], []⟩ } }

/-- `Archetype::new`: construction with the default `grow_size` of 64. -/
def Archetype.new (type_info : List TypeId) : Archetype :=
  Archetype.with_grow type_info 64

/-- `Archetype::type_index_dynamic`: the `type_indices` `HashMap` lookup.  The
map was filled by inserting `(ty, index)` for every column in order, so a
duplicated type resolves to the last inserted index; the reversed search
mirrors that overwrite semantics. -/
def Archetype.type_index_dynamic (a : Archetype) (ty : TypeId) : Option Nat :=
  (a.type_info.enum.reverse.find? fun p => p.2 == ty).map fun p => p.1

/-- `Archetype::has_type`. -/
def Archetype.has_type (a : Archetype) (ty : TypeId) : Bool :=
  (a.type_index_dynamic ty).isSome

/-- `Archetype::len` (the entity count). -/
def Archetype.len (a : Archetype) : Nat :=
  a.entities.length

/-- `Archetype::allocate`: push the entity and grow every column flag array by
one `false`/`false` entry.  The column backing storages are not touched; the
row is completed later by one `insert` per column.  Returns the new row index
`len - 1` alongside the new state. -/
def Archetype.allocate (a : Archetype) (e : Entity) : Archetype × Nat :=
  let a' :=
    { a with
      entities := a.entities ++ [e]
      component_storages := a.component_storages.map fun s => { s with meta := s.meta.allocate } }
  (a', a'.len - 1)

/-- `Archetype::insert_dynamic`: `get_storage_dynamic_mut(type_id).unwrap().push(value)`;
the `unwrap` panics when the archetype has no column of that type. -/
def Archetype.insert_dynamic (a : Archetype) (ty : TypeId) (v : Value) :
    Except String Archetype :=
  match a.type_index_dynamic ty with
  | none => .error "called Option::unwrap on a None value"
  | some j =>
    .ok { a with
          component_storages :=
            a.component_storages.set j ((a.component_storages.getD j default).push v) }

/-- `Archetype::clear_trackers`. -/
def Archetype.clear_trackers (a : Archetype) : Archetype :=
  { a with
    component_storages :=
      a.component_storages.map fun s => { s with meta := s.meta.clear_trackers } }

/-- The storage loop of `Archetype::remove`: for every column, swap-remove the
value, the added flag and the mutated flag at `index`. -/
def removeStorages (l : List ComponentStorage) (i : Nat) :
    Except String (List ComponentStorage) :=
  match l with
  | [] => .ok []
  | s :: rest => do
    let s' ← s.swap_remove i false
    let ad ← vecSwapRemove s.meta.added_entities i
    let mu ← vecSwapRemove s.meta.mutated_entities i
    let rest' ← removeStorages rest i
    pure ({ s' with meta := { added_entities := ad, mutated_entities := mu } } :: rest')

/-- `Archetype::remove(index)`: panics when `index` is out of bounds, swap
removes the row from every column and both flag arrays, then pops or swap
removes the entity array, returning the entity moved into `index`, if any. -/
def Archetype.remove (a : Archetype) (i : Nat) : Except String (Archetype × Option Entity) :=
  if i ≥ a.len then .error "entity index in archetype is out of bounds"
  else
    match removeStorages a.component_storages i with
    | .error e => .error e
    | .ok storages =>
      if a.entities.length - 1 = i then
        .ok ({ a with component_storages := storages, entities := a.entities.dropLast }, none)
      else
        match (listSwapRemove a.entities i)[i]? with
        | some e =>
          .ok ({ a with component_storages := storages, entities := listSwapRemove a.entities i },
               some e)
        | none => .error "index out of bounds"

/-- The storage loop of `Archetype::move_to`: for every source column, if the
destination has a column of the same type the value is pushed there and the
source storage entry is swap-removed with `forget = true`; otherwise the
source storage entry is swap-removed with `forget = !drop_unused`.  Note that,
unlike `Archetype::remove`, the source flag arrays are never touched. -/
def moveStorages (l : List ComponentStorage) (dst : Archetype) (old_index : Nat)
    (drop_unused : Bool) : Except String (List ComponentStorage × Archetype) :=
  match l with
  | [] => .ok ([], dst)
  | s :: rest =>
    match dst.type_index_dynamic s.ty with
    | some _ => do
      -- `get_value` is an unchecked read; out of bounds would be undefined
      -- behaviour, modelled as an error distinct from any panic message.
      let v ← match s.storage.get? old_index with
              | some v => Except.ok v
              | none => Except.error "UB: get_value out of bounds"
      let dst' ← match dst.type_index_dynamic s.ty with
                 | some j =>
                   Except.ok { dst with
                     component_storages :=
                       dst.component_storages.set j
                         ((dst.component_storages.getD j default).push v) }
                 | none => Except.error "unreachable"
      let s' ← s.swap_remove old_index true
      let (rest', dst'') ← moveStorages rest dst' old_index drop_unused
      pure (s' :: rest', dst'')
    | none => do
      let s' ← s.swap_remove old_index (!drop_unused)
      let (rest', dst') ← moveStorages rest dst old_index drop_unused
      pure (s' :: rest', dst')

/-- `Archetype::move_to(location, archetype, drop_unused)`: allocates a row in
the destination for the moved entity, copies or drops every column value, then
pops or swap-removes the source entity array.  Returns the updated source, the
updated destination, the new location index, and the relocated entity. -/
def Archetype.move_to (src : Archetype) (locIndex : Nat) (dst : Archetype)
    (drop_unused : Bool) : Except String (Archetype × Archetype × Nat × Option Entity) :=
  if _h : locIndex < src.len then do
    let movedEntity := src.entities.getD locIndex 0
    let (dst₁, target_index) := dst.allocate movedEntity
    let old_index := locIndex
    let (storages, dst₂) ← moveStorages src.component_storages dst₁ old_index drop_unused
    if src.entities.length - 1 = old_index then
      pure ({ src with component_storages := storages, entities := src.entities.dropLast },
            dst₂, target_index, none)
    else
      let ents := listSwapRemove src.entities old_index
      match ents.get? old_index with
      | some e =>
        pure ({ src with component_storages := storages, entities := ents },
              dst₂, target_index, some e)
      | none => .error "index out of bounds"
  else .error "entity index in archetype is out of bounds"

/-- The row-alignment check of the spec: every column storage and both of its
flag arrays have the same length as the entity array. -/
def Archetype.alignedB (a : Archetype) : Bool :=
  a.component_storages.all fun s =>
    s.storage.length == a.entities.length
    && s.meta.added_entities.length == a.entities.length
    && s.meta.mutated_entities.length == a.entities.length

/-! ### The typed fetch engine (`query.rs`): `Access`, `Mut` and `FetchMut` -/

/-- `Access`: how strongly a query touches a Group; `Iterate < Read < Write`. -/
inductive Access where
  | Iterate
  | Read
  | Write
deriving Repr, DecidableEq, Inhabited

/-- Numeric rank realising the derived `Ord` of `Access`. -/
def Access.rank : Access → Nat
  | .Iterate => 0
  | .Read => 1
  | .Write => 2

/-- The `max` of two access levels used by tuple and `Or` fetches. -/
def Access.maxA (x y : Access) : Access :=
  if x.rank < y.rank then y else x

/-- Modelled from the spec: `Archetype::get_with_type_state::<T>` (its body is
not part of `src/`; only its callers in `query.rs` are) returns the column
base pointer together with its flag state when the archetype stores `T`.  The
pointer pair is modelled as the column index. -/
def Archetype.get_with_type_state (a : Archetype) (ty : TypeId) : Option Nat :=
  a.type_index_dynamic ty

/-- `Mut<'a, T>`: a pair of raw pointers, one to the component value and one to
the row's mutated flag, modelled as row offsets into the column. -/
structure MutRef where
  value : Nat
  mutated : Nat
deriving Repr, DecidableEq

/-- `Mut::deref_mut`: writing through the reference stores `true` at the
mutated-flag pointer (and nothing else).  The flag array of the column is
passed explicitly; a write out of bounds would be undefined behaviour, so the
theorems assume the pointer is in bounds. -/
def Mut.deref_mut (m : MutRef) (flags : List Bool) : List Bool :=
  flags.set m.mutated true

/-- `FetchMut<T>`: the component cursor and the mutated-flag cursor. -/
structure FetchMut where
  ptrC : Nat
  ptrM : Nat
deriving Repr, DecidableEq

/-- `FetchMut::get`: builds the cursors at `offset` when the archetype has the
component, via `get_with_type_state`. -/
def FetchMut.get (a : Archetype) (ty : TypeId) (offset : Nat) : Option FetchMut :=
  (a.get_with_type_state ty).map fun _ => { ptrC := offset, ptrM := offset }

/-- `FetchMut::next` as a transformer of the column flag state: it advances
both cursors and hands out a `Mut` reference to the current row.  The source
function performs no store, so the flag array is returned unchanged. -/
def FetchMut.next (f : FetchMut) (flags : List Bool) :
    FetchMut × List Bool × MutRef :=
  ({ ptrC := f.ptrC + 1, ptrM := f.ptrM + 1 }, flags, { value := f.ptrC, mutated := f.ptrM })

/-! ### Single-use query borrow handles (`query.rs`, `system/query.rs`,
`dynamic_query.rs`)

Each borrow handle is reduced to the state its entry points inspect: the
`borrowed` flag.  The counter acquisitions done by `Fetch::borrow` act on the
archetypes (their `AtomicBorrow` lives in `borrow.rs`) and never touch the
handle, so they do not affect the single-use discipline modelled here. -/

/-- The `borrowed` flag shared by the three handle types. -/
structure BorrowHandle where
  borrowed : Bool
deriving Repr, DecidableEq

/-- A fresh handle, as produced by `QueryBorrow::new`,
`QueryBorrowChecked::new` and `DynamicQueryBorrow::new`. -/
def BorrowHandle.new : BorrowHandle := { borrowed := false }

/-- `QueryBorrow::borrow`: panic on reuse, otherwise mark borrowed. -/
def QueryBorrow.borrow (h : BorrowHandle) : Except String BorrowHandle :=
  if h.borrowed then
    .error "called QueryBorrow::iter twice on the same borrow; construct a new query instead"
  else .ok { borrowed := true }

/-- The iteration entry points of `QueryBorrow`. -/
inductive QBEntry where
  | iter
  | iterBatched (batch_size : Nat)
deriving Repr, DecidableEq

/-- Running a `QueryBorrow` entry point: both `iter` and `iter_batched` first
call `borrow` and then only build an iterator value. -/
def QueryBorrow.run : QBEntry → BorrowHandle → Except String BorrowHandle
  | .iter, h => QueryBorrow.borrow h
  | .iterBatched _, h => QueryBorrow.borrow h

/-- `QueryBorrowChecked::borrow`: panic on reuse, otherwise acquire the column
borrows of every accessed archetype (counter state lives outside the handle)
and mark borrowed. -/
def QueryBorrowChecked.borrow (h : BorrowHandle) : Except String BorrowHandle :=
  if h.borrowed then
    .error "called QueryBorrowChecked::iter twice on the same borrow; construct a new query instead"
  else .ok { borrowed := true }

/-- The iteration entry points of `QueryBorrowChecked`. -/
inductive QBCEntry where
  | iter
  | parIter (batch_size : Nat)
deriving Repr, DecidableEq

/-- Running a `QueryBorrowChecked` entry point: both `iter` and `par_iter`
first call `borrow`. -/
def QueryBorrowChecked.run : QBCEntry → BorrowHandle → Except String BorrowHandle
  | .iter, h => QueryBorrowChecked.borrow h
  | .parIter _, h => QueryBorrowChecked.borrow h

/-- `DynamicQueryBorrow::iter_mut`: its only iteration entry point, with its
own reuse panic. -/
def DynamicQueryBorrow.iter_mut (h : BorrowHandle) : Except String BorrowHandle :=
  if h.borrowed then .error "call iter_mut on query multiple times"
  else .ok { borrowed := true }

/-! ### Access conflict analysis (`system/system.rs`) -/

/-- `FixedBitSet`, modelled by its bit contents; bits past the end read 0. -/
abbrev FixedBitSet := List Bool

/-- `FixedBitSet::grow(bits)`: extend with zero bits up to `bits`. -/
def fbsGrow (b : FixedBitSet) (n : Nat) : FixedBitSet :=
  b ++ List.replicate (n - b.length) false

/-- `FixedBitSet::contains`. -/
def fbsContains (b : FixedBitSet) (i : Nat) : Bool :=
  b.getD i false

/-- `FixedBitSet::set(i, true)`; the callers below only set bits previously
grown into range. -/
def fbsSet (b : FixedBitSet) (i : Nat) : FixedBitSet :=
  b.set i true

/-- `FixedBitSet::is_disjoint`: no bit is set in both sets. -/
def fbsIsDisjoint (x y : FixedBitSet) : Bool :=
  (List.range (max x.length y.length)).all fun i => !(fbsContains x i && fbsContains y i)

/-- `ArchetypeAccess`: per-work-unit bitsets over archetype indices;
`accessed` is the union of reads and writes, `mutable` the writes only. -/
structure ArchetypeAccess where
  accessed : FixedBitSet
  mutable : FixedBitSet
deriving Repr, DecidableEq

/-- `ArchetypeAccess::default`. -/
def ArchetypeAccess.default : ArchetypeAccess := { accessed := [], mutable := [] }

/-- `ArchetypeAccess::is_compatible`. -/
def ArchetypeAccess.is_compatible (a b : ArchetypeAccess) : Bool :=
  fbsIsDisjoint a.mutable b.accessed && fbsIsDisjoint a.accessed b.mutable

/-- `ArchetypeAccess::union`. -/
def ArchetypeAccess.union (a b : ArchetypeAccess) : ArchetypeAccess :=
  { accessed := fbsGrow a.accessed b.accessed.length |>.zipWith or (fbsGrow b.accessed a.accessed.length)
    mutable := fbsGrow a.mutable b.mutable.length |>.zipWith or (fbsGrow b.mutable a.mutable.length) }

/-- `ArchetypeAccess::set_access_for_stateful_query`, with the per-archetype
result of `archetype.access::<Q>()` passed explicitly (the shallow image of
the generic query parameter): grow both bitsets to the archetype count, then
set bits for every archetype the query reads or writes. -/
def ArchetypeAccess.set_access_for_query (aa : ArchetypeAccess)
    (accesses : List (Option Access)) : ArchetypeAccess :=
  let bits := accesses.length
  accesses.enum.foldl
    (fun st p =>
      match p.2 with
      | some .Read => { st with accessed := fbsSet st.accessed p.1 }
      | some .Write =>
        { accessed := fbsSet st.accessed p.1, mutable := fbsSet st.mutable p.1 }
      | some .Iterate => st
      | none => st)
    { accessed := fbsGrow aa.accessed bits, mutable := fbsGrow aa.mutable bits }

/-- The access computation of a tuple of `&T` and `&mut T` fetches against one
archetype (`tuple_impl` in `query.rs`): the running `max` starting from
`Iterate`, where a missing required component excludes the archetype. -/
def foldAccess : List (Option Access) → Option Access
  | [] => some .Iterate
  | x :: rest =>
    match x, foldAccess rest with
    | some a, some b => some (a.maxA b)
    | _, _ => none

/-- `Q::Fetch::access` for a query shape reading the components `reads` and
writing the components `writes` (`FetchRead::access` yields `Read`,
`FetchMut::access` yields `Write`, each `None` when absent). -/
def queryAccess (reads writes : List TypeId) (a : Archetype) : Option Access :=
  foldAccess
    ((reads.map fun t => if a.has_type t then some Access.Read else none)
      ++ (writes.map fun t => if a.has_type t then some Access.Write else none))

/-! ### The dynamic query engine (`dynamic_query.rs`) -/

/-- Modelled from the spec: `Archetype::has_component` (its body is not part
of `src/`) reports whether the archetype's signature contains the runtime
component id. -/
def Archetype.has_component (a : Archetype) (id : TypeId) : Bool :=
  a.has_type id

/-- Modelled from the spec: `Archetype::get_dynamic(id, size, index)` (its
body is not part of `src/`) returns a pointer into the column of the runtime
component when present; the pointer is modelled as the column index. -/
def Archetype.get_dynamic (a : Archetype) (id : TypeId) (_size _index : Nat) : Option Nat :=
  a.type_index_dynamic id

/-- `DynamicComponentInfo`: a runtime component descriptor; the destructor is
irrelevant to the queries modelled here and the layout is reduced to its
size. -/
structure DynamicComponentInfo where
  id : TypeId
  size : Nat
deriving Repr, DecidableEq

/-- `DynamicQuery`: an entity flag plus the immutable and the mutable
descriptor lists.  The struct derives `Default` and its fields are public, so
building one performs no validation. -/
structure DynamicQuery where
  entity : Bool
  immutable : List DynamicComponentInfo
  mutable : List DynamicComponentInfo
deriving Repr, DecidableEq

/-- `DynamicQuery::default()`. -/
def DynamicQuery.default : DynamicQuery :=
  { entity := false, immutable := [], mutable := [] }

/-- `Vec::push` on the public `immutable` list. -/
def DynamicQuery.pushImmutable (q : DynamicQuery) (c : DynamicComponentInfo) : DynamicQuery :=
  { q with immutable := q.immutable ++ [c] }

/-- `Vec::push` on the public `mutable` list. -/
def DynamicQuery.pushMutable (q : DynamicQuery) (c : DynamicComponentInfo) : DynamicQuery :=
  { q with mutable := q.mutable ++ [c] }

/-- All descriptor ids of the query, immutable list first — the order in which
`get_fetch` feeds them to its `ComponentIdSet`. -/
def DynamicQuery.ids (q : DynamicQuery) : List TypeId :=
  q.immutable.map (·.id) ++ q.mutable.map (·.id)

/-- The `ComponentIdSet` insertions of `get_fetch`: `insert` returns `false`
on an id already present, which makes the whole walk fail. -/
def insertAll (seen : List TypeId) : List TypeId → Option (List TypeId)
  | [] => some seen
  | i :: rest => if seen.contains i then none else insertAll (i :: seen) rest

/-- Whether the duplicate check of `get_fetch` passes: no id occurs twice
within or across the immutable and mutable lists. -/
def DynamicQuery.dupFree (q : DynamicQuery) : Bool :=
  (insertAll [] q.ids).isSome

/-- The panic message of the duplicate check in `DynamicQuery::get_fetch`. -/
def dupPanicMsg : String :=
  "Found multiples of the same component in a DynamicQuery"

/-- One fetch pointer of a dynamic query: the column index and the byte offset
added by `get_fetch`. -/
structure DynPtr where
  col : Nat
  off : Nat
deriving Repr, DecidableEq

/-- `DynamicQueryFetch`, reduced to its observable pointer lists. -/
structure DynamicQueryFetch where
  entity : Bool
  immutablePtrs : List DynPtr
  mutablePtrs : List DynPtr
deriving Repr, DecidableEq

/-- One of the two component loops of `get_fetch`: collect a pointer for every
descriptor resolvable in the archetype, recording whether any matched
(`matches_any`) and whether any was missing (`missing_any`). -/
def dynFetchLoop (a : Archetype) (off : Nat) :
    List DynamicComponentInfo → List DynPtr × Bool × Bool
  | [] => ([], false, false)
  | c :: rest =>
    let r := dynFetchLoop a off rest
    match a.get_dynamic c.id c.size 0 with
    | some p => ({ col := p, off := off } :: r.1, true, r.2.2)
    | none => (r.1, r.2.1, true)

/-- `DynamicQuery::get_fetch(archetype, offset)`: panics when the duplicate
check fails, otherwise builds the fetch and returns it only when at least one
descriptor matched and none was missing. -/
def DynamicQuery.get_fetch (q : DynamicQuery) (a : Archetype) (off : Nat) :
    Except String (Option DynamicQueryFetch) :=
  if q.dupFree then
    let ri := dynFetchLoop a off q.immutable
    let rm := dynFetchLoop a off q.mutable
    let fetch : DynamicQueryFetch :=
      { entity := q.entity, immutablePtrs := ri.1, mutablePtrs := rm.1 }
    if (ri.2.1 || rm.2.1) && !(ri.2.2 || rm.2.2) then .ok (some fetch) else .ok none
  else .error dupPanicMsg

/-- `DynamicQuery::access`: `Some Read` once any immutable descriptor is
present, overridden to `Some Write` once any mutable descriptor is present;
`None` when no listed descriptor is present at all. -/
def DynamicQuery.access (q : DynamicQuery) (a : Archetype) : Option Access :=
  let acc := q.immutable.foldl
    (fun acc c => if a.has_component c.id then some Access.Read else acc) none
  q.mutable.foldl
    (fun acc c => if a.has_component c.id then some Access.Write else acc) acc

/-! ### Single-row lookups and their error reporting (`bundle.rs`,
`query.rs`) -/

/-- `MissingComponent`: the value-level error naming the requested component
type, as produced by `MissingComponent::new::<T>()`. -/
structure MissingComponent where
  name : String
deriving Repr, DecidableEq

/-- `Mut::new(archetype, index)`: returns the mutable reference when the
archetype stores `T`, and the value-level `MissingComponent` error otherwise
(`ok_or_else(MissingComponent::new::<T>)`).  `T` is passed as its type id and
its type name. -/
def Mut.new (a : Archetype) (ty : TypeId) (name : String) (index : Nat) :
    Except MissingComponent MutRef :=
  match a.get_with_type_state ty with
  | some _ => .ok { value := index, mutated := index }
  | none => .error { name := name }

/-- `Archetype::get_value::<T>(index)`:
`get_storage::<T>().map(|s| s.get_value(index).read())` — `none` exactly when
the archetype lacks the component type; the read itself is unchecked, so an
out-of-bounds index is undefined behaviour, modelled as a distinct error. -/
def Archetype.get_value (a : Archetype) (ty : TypeId) (index : Nat) :
    Except String (Option Value) :=
  match a.type_index_dynamic ty with
  | none => .ok none
  | some j =>
    match (a.component_storages.getD j default).storage.get? index with
    | some v => .ok (some v)
    | none => .error "UB: get_value out of bounds"

/-- The panic message of `Option::unwrap` on `None`. -/
def unwrapPanicMsg : String := "called Option::unwrap on a None value"

/-- The tuple implementation of `Bundle::get(archetype, index)`: one
`archetype.get_value::<T>(index).unwrap()` per field, so a missing component
type panics instead of surfacing the declared `MissingComponent` error. -/
def bundleGet (a : Archetype) (tys : List TypeId) (index : Nat) :
    Except String (List Value) :=
  match tys with
  | [] => .ok []
  | t :: rest => do
    let v? ← a.get_value t index
    match v? with
    | some v => do
      let vs ← bundleGet a rest index
      pure (v :: vs)
    | none => .error unwrapPanicMsg

/-! ### The structure-of-arrays batch spawn (`soa.rs`), two-component case -/

/-- The slice of the `World` state that the SoA spawn path touches: the
archetype list, the signature index (an association list standing for the
`HashMap`), and the entity allocator modelled as a fresh-id counter
(`Entities::claim(n)` hands out `n` fresh handles; the allocator itself is an
external collaborator). -/
structure World where
  archetypes : List Archetype
  index : List (List TypeId × Nat)
  next_entity : Nat
deriving Repr, DecidableEq

/-- The empty world. -/
def World.empty : World := { archetypes := [], index := [], next_entity := 0 }

/-- The observable outcome of one SoA spawn: the row range created and, per
sorted component type, the values written into that column's raw buffer.  (The
copy targets reserved capacity beyond the column's `len`, so the column's
`storage` list itself stays untouched.) -/
structure SoaResult where
  start_index : Nat
  entity_count : Nat
  writes : List (TypeId × List Value)
deriving Repr, DecidableEq

/-- `ptr::copy_nonoverlapping` of `count` items out of `vals`: reading past
the source length is undefined behaviour. -/
def copyNonoverlapping (vals : List Value) (count : Nat) : Except String (List Value) :=
  if count ≤ vals.length then .ok (vals.take count)
  else .error "UB: copy_nonoverlapping reads out of bounds"

/-- Insert into a sorted list, keeping earlier equal elements first. -/
def insertSorted (le : α → α → Bool) (x : α) : List α → List α
  | [] => [x]
  | y :: ys => if le x y then x :: y :: ys else y :: insertSorted le x ys

/-- A stable sort by the given comparator, standing in for
`slice::sort_unstable_by` / `Vec::sort_by_key` (the orders used below are
total, so unstable and stable sorting agree). -/
def sortBy (le : α → α → Bool) (l : List α) : List α :=
  l.foldr (insertSorted le) []

/-- One component description given to the SoA spawn: alignment, type id and
the input vector. -/
structure SoaColumn where
  align : Nat
  ty : TypeId
  vals : List Value
deriving Repr, DecidableEq

/-- The copy loop of `SpawnBatch::spawn`: the k-th tuple component's vector is
copied into the column of `type_ids[k]` (the align-descending sorted order),
`entity_count` items each, with no check of the individual vector lengths. -/
def soaCopyLoop (a : Archetype) (type_ids : List TypeId) (cols : List SoaColumn)
    (entity_count : Nat) : Except String (List (TypeId × List Value)) :=
  match type_ids, cols with
  | [], _ => .ok []
  | _, [] => .ok []
  | t :: ts, c :: cs => do
    if (a.type_index_dynamic t).isNone then
      .error unwrapPanicMsg
    else do
      let copied ← copyNonoverlapping c.vals entity_count
      let rest ← soaCopyLoop a ts cs entity_count
      pure ((t, copied) :: rest)

/-- `SpawnBatch::spawn` for a two-component `SoaBatch` (the `soa_impl!` macro
expanded at arity 2): `entity_count` is overwritten by each vector's length in
turn — there is no equal-length check (the source carries a `TODO` for it) —
then the only guard is a panic on `entity_count == 0`; the archetype is looked
up or created, `entity_count` rows are allocated, and each input vector is
bulk-copied with `entity_count` taken as the row count for every column. -/
def soaSpawn2 (c1 c2 : SoaColumn) (w : World) : Except String (World × SoaResult) := do
  -- `entity_count` is assigned once per input vector, each assignment
  -- overwriting the last: only the final vector's length survives.
  let _entity_count := c1.vals.length
  let entity_count := c2.vals.length
  if entity_count = 0 then
    .error "there should be at least 1 entity"
  else do
    let xs := [(c1.align, c1.ty), (c2.align, c2.ty)]
    let sorted := sortBy (fun x y => decide (y.1 < x.1) || (x.1 == y.1 && decide (x.2 ≤ y.2))) xs
    let type_ids := sorted.map (·.2)
    let (archetype_id, w) :=
      match w.index.lookup type_ids with
      | some i => (i, w)
      | none =>
        let archetype_id := w.archetypes.length
        let type_info := sortBy (fun x y => decide (x ≤ y)) [c1.ty, c2.ty]
        ({ w with
            archetypes := w.archetypes ++ [Archetype.new type_info]
            index := w.index ++ [(type_ids, archetype_id)] } |> fun w' => (archetype_id, w'))
    match w.archetypes.get? archetype_id with
    | none => .error "index out of bounds"
    | some archetype => do
      let start_index := archetype.len
      let claimed := (List.range entity_count).map (w.next_entity + ·)
      let archetype := claimed.foldl (fun a e => (a.allocate e).1) archetype
      if archetype.len ≠ start_index + entity_count then
        .error "assertion failed"
      else do
        let writes ← soaCopyLoop archetype type_ids [c1, c2] entity_count
        let w := { w with
          archetypes := w.archetypes.set archetype_id archetype
          next_entity := w.next_entity + entity_count }
        pure (w, { start_index := start_index, entity_count := entity_count, writes := writes })

/-! ### Concrete fixtures used to settle the claims on explicit inputs -/

/-- A one-column Group holding one fully aligned row (entity 10, value 5). -/
def c1Src : Archetype :=
  { type_info := [0]
    entities := [10]
    grow_size := 64
    component_storages :=
      [{ ty := 0, storage := [5]
         meta := { added_entities := [false], mutated_entities := [false] } }] }

/-- An empty destination Group with the same single-component signature. -/
def c1Dst : Archetype := Archetype.new [0]

/-- A one-column Group with two aligned rows (entities 20 and 21). -/
def c2Arch : Archetype :=
  { type_info := [0]
    entities := [20, 21]
    grow_size := 64
    component_storages :=
      [{ ty := 0, storage := [7, 8]
         meta := { added_entities := [false, false], mutated_entities := [false, false] } }] }

/-- Three single-component Groups: Group 0 stores component 0, Group 1 stores
component 1, Group 2 stores component 2. -/
def world3 : List Archetype := [Archetype.new [0], Archetype.new [1], Archetype.new [2]]

/-- Work unit U1: one query writing component 0 (hence Group 0) plus one query
reading component 1 (hence Group 1), accumulated the way
`DynamicSystem::update_archetype_access` folds its queries. -/
def accessU1 : ArchetypeAccess :=
  (ArchetypeAccess.default.set_access_for_query (world3.map (queryAccess [] [0])))
    |>.set_access_for_query (world3.map (queryAccess [1] []))

/-- Work unit U2: one query reading component 0 (hence Group 0). -/
def accessU2 : ArchetypeAccess :=
  ArchetypeAccess.default.set_access_for_query (world3.map (queryAccess [0] []))

/-- Work unit U3: one query writing component 2 (hence the disjoint Group 2). -/
def accessU3 : ArchetypeAccess :=
  ArchetypeAccess.default.set_access_for_query (world3.map (queryAccess [] [2]))

/-- A one-column Group with one pre-existing completed row whose added flag is
set, to observe that other rows keep their flags. -/
def c4Arch : Archetype :=
  { type_info := [0]
    entities := [1]
    grow_size := 64
    component_storages :=
      [{ ty := 0, storage := [7]
         meta := { added_entities := [true], mutated_entities := [false] } }] }

/-- A registered dynamic component descriptor (external id 101, 16 bytes). -/
def c8Info1 : DynamicComponentInfo := { id := 101, size := 16 }

/-- A registered dynamic component descriptor (external id 102, 4 bytes). -/
def c8Info2 : DynamicComponentInfo := { id := 102, size := 4 }

/-- The invalid dynamic query of the repository's own `invalid_query_panics`
test: descriptor 101 in the immutable list and again in the mutable list. -/
def c8Query : DynamicQuery :=
  { entity := false, immutable := [c8Info1], mutable := [c8Info2, c8Info1] }

/-- A dynamic query reading components 1 and 2 (no mutable list). -/
def c10Query : DynamicQuery :=
  { entity := false
    immutable := [{ id := 1, size := 4 }, { id := 2, size := 4 }]
    mutable := [] }

/-- A Group storing only component 1, so `c10Query` can never fetch it. -/
def c10Arch : Archetype := Archetype.new [1]

/-- SoA input column for tuple position A: component 0, two values. -/
def soaColA : SoaColumn := { align := 8, ty := 0, vals := [11, 12] }

/-- SoA input column for tuple position B: component 1, one value — a length
mismatch with `soaColA`. -/
def soaColB : SoaColumn := { align := 8, ty := 1, vals := [21] }

/-- A mutable fetch whose cursors sit at row 0. -/
def c5Fetch : FetchMut := { ptrC := 0, ptrM := 0 }

/-- A two-row mutated-flag array with the second row already flagged. -/
def c5Flags : List Bool := [false, true]

/-- A dynamic query reading only descriptor 101 — no duplicate ids. -/
def c8ValidQuery : DynamicQuery := DynamicQuery.default.pushImmutable c8Info1

/-! ### Supporting lemmas -/

/-- Length of a swap-remove on a nonempty list. -/
theorem listSwapRemove_length (l : List α) (i : Nat) (h : 0 < l.length) :
    (listSwapRemove l i).length = l.length - 1 := by
  unfold listSwapRemove
  cases hl : l.getLast? with
  | none =>
    rw [List.getLast?_eq_none_iff] at hl
    subst hl; simp at h
  | some x => simp

/-- A swap-remove below the last index places the previously last element at
the removed index. -/
theorem listSwapRemove_get?_lt (l : List α) (i : Nat) (h : i + 1 < l.length) :
    (listSwapRemove l i)[i]? = l[l.length - 1]? := by
  unfold listSwapRemove
  cases hl : l.getLast? with
  | none =>
    rw [List.getLast?_eq_none_iff] at hl
    subst hl; simp at h
  | some x =>
    have hx : l[l.length - 1]? = some x := by
      rw [← List.getLast?_eq_getElem?]; exact hl
    show ((l.set i x).dropLast)[i]? = l[l.length - 1]?
    rw [List.dropLast_eq_take, hx]
    simp only [List.length_set]
    rw [List.getElem?_take]
    have hi : i < l.length := by omega
    simp [List.getElem?_set_self, hi, show i < l.length - 1 by omega]

/-- The explicit success value of the storage loop of `Archetype::remove` when
the row index is in bounds for every column array. -/
theorem removeStorages_eq (i : Nat) (l : List ComponentStorage)
    (h : ∀ s ∈ l, i < s.storage.length ∧ i < s.meta.added_entities.length
        ∧ i < s.meta.mutated_entities.length) :
    removeStorages l i = .ok (l.map fun s =>
      { s with storage := listSwapRemove s.storage i
               meta := { added_entities := listSwapRemove s.meta.added_entities i
                         mutated_entities := listSwapRemove s.meta.mutated_entities i } }) := by
  induction l with
  | nil => rfl
  | cons s rest ih =>
    obtain ⟨h1, h2, h3⟩ := h s (by simp)
    have ihh := ih fun t ht => h t (by simp [ht])
    simp [removeStorages, ComponentStorage.swap_remove, vecSwapRemove, h1, h2, h3, ihh]
    rfl

/-- Bit-level disjointness of two bitsets coincides with pointwise
disjointness over all indices. -/
theorem fbsIsDisjoint_iff (x y : FixedBitSet) :
    fbsIsDisjoint x y = true ↔
      ∀ i, ¬(fbsContains x i = true ∧ fbsContains y i = true) := by
  unfold fbsIsDisjoint
  rw [List.all_eq_true]
  constructor
  · intro h i hc
    by_cases hi : i < max x.length y.length
    · have hbit := h i (List.mem_range.mpr hi)
      rw [hc.1, hc.2] at hbit
      simp at hbit
    · have hx : fbsContains x i = false :=
        List.getD_eq_default _ _ (by simp only [Nat.max_lt, not_lt] at hi; omega)
      rw [hc.1] at hx
      simp at hx
  · intro h i _
    have hi := h i
    cases hx : fbsContains x i <;> cases hy : fbsContains y i <;> simp_all

/-- The first result flag of `dynFetchLoop` records whether any listed
descriptor is present in the archetype. -/
theorem dynFetchLoop_matches (a : Archetype) (off : Nat)
    (cs : List DynamicComponentInfo) :
    (dynFetchLoop a off cs).2.1 = cs.any fun c => a.has_component c.id := by
  induction cs with
  | nil => rfl
  | cons c rest ih =>
    simp only [dynFetchLoop, List.any_cons]
    cases h : a.get_dynamic c.id c.size 0 with
    | none =>
      have hc : a.has_component c.id = false := by
        simp only [Archetype.has_component, Archetype.has_type, Archetype.get_dynamic] at h ⊢
        simp [h]
      simp [hc, ih]
    | some p =>
      have hc : a.has_component c.id = true := by
        simp only [Archetype.has_component, Archetype.has_type, Archetype.get_dynamic] at h ⊢
        simp [h]
      simp [hc, ih]

/-- The second result flag of `dynFetchLoop` records whether any listed
descriptor is missing from the archetype. -/
theorem dynFetchLoop_missing (a : Archetype) (off : Nat)
    (cs : List DynamicComponentInfo) :
    (dynFetchLoop a off cs).2.2 = cs.any fun c => !(a.has_component c.id) := by
  induction cs with
  | nil => rfl
  | cons c rest ih =>
    simp only [dynFetchLoop, List.any_cons]
    cases h : a.get_dynamic c.id c.size 0 with
    | none =>
      have hc : a.has_component c.id = false := by
        simp only [Archetype.has_component, Archetype.has_type, Archetype.get_dynamic] at h ⊢
        simp [h]
      simp [hc, ih]
    | some p =>
      have hc : a.has_component c.id = true := by
        simp only [Archetype.has_component, Archetype.has_type, Archetype.get_dynamic] at h ⊢
        simp [h]
      simp [hc, ih]

/-- Folding the presence test over a descriptor list yields `some` exactly
when the accumulator already did or some descriptor is present. -/
theorem foldl_access_isSome (p : DynamicComponentInfo → Bool) (X : Access)
    (l : List DynamicComponentInfo) (init : Option Access) :
    (l.foldl (fun acc c => if p c then some X else acc) init).isSome
      = (init.isSome || l.any p) := by
  induction l generalizing init with
  | nil => simp
  | cons c rest ih =>
    simp only [List.foldl_cons, List.any_cons]
    rw [ih]
    cases hp : p c <;> simp [hp, Bool.or_assoc, Bool.or_comm]

/-- `DynamicQuery::access` yields `some` exactly when some listed descriptor
is present in the archetype. -/
theorem dynAccess_isSome (q : DynamicQuery) (a : Archetype) :
    (q.access a).isSome
      = (q.immutable ++ q.mutable).any fun c => a.has_component c.id := by
  unfold DynamicQuery.access
  rw [foldl_access_isSome (fun c => a.has_component c.id) Access.Write,
    foldl_access_isSome (fun c => a.has_component c.id) Access.Read]
  simp [List.any_append, Bool.or_assoc]

/-! ### Claim theorems -/

/-- C2: removing row `i` from an aligned Group of length `n` with `i` in
bounds succeeds, shrinks the Group by exactly one row, returns `none` when
`i` was the last row, and otherwise returns the entity that occupied row
`n - 1` before the call, which now occupies row `i`. -/
theorem remove_swap_relocation (a : Archetype) (i : Nat)
    (hAl : a.alignedB = true) (hi : i < a.len) :
    ∃ a' r, a.remove i = .ok (a', r)
      ∧ a'.len + 1 = a.len
      ∧ (i + 1 = a.len → r = none)
      ∧ (i + 1 < a.len →
          r = some (a.entities.getD (a.len - 1) 0)
            ∧ a'.entities[i]? = some (a.entities.getD (a.len - 1) 0)) := by
  have hlen : a.len = a.entities.length := rfl
  have hb : ∀ s ∈ a.component_storages,
      i < s.storage.length ∧ i < s.meta.added_entities.length
        ∧ i < s.meta.mutated_entities.length := by
    intro s hs
    have h := List.all_eq_true.mp hAl s hs
    simp only [Bool.and_eq_true, beq_iff_eq] at h
    obtain ⟨⟨e1, e2⟩, e3⟩ := h
    rw [hlen] at hi
    exact ⟨by omega, by omega, by omega⟩
  have hrem0 : a.remove i =
      (if a.entities.length - 1 = i then
        .ok ({ a with
                component_storages := a.component_storages.map fun s =>
                  { s with storage := listSwapRemove s.storage i
                           meta := { added_entities := listSwapRemove s.meta.added_entities i
                                     mutated_entities := listSwapRemove s.meta.mutated_entities i } }
                entities := a.entities.dropLast }, none)
      else
        match (listSwapRemove a.entities i)[i]? with
        | some e =>
          .ok ({ a with
                  component_storages := a.component_storages.map fun s =>
                    { s with storage := listSwapRemove s.storage i
                             meta := { added_entities := listSwapRemove s.meta.added_entities i
                                       mutated_entities := listSwapRemove s.meta.mutated_entities i } }
                  entities := listSwapRemove a.entities i }, some e)
        | none => .error "index out of bounds") := by
    unfold Archetype.remove
    rw [if_neg (by omega), removeStorages_eq i _ hb]
  by_cases hcase : a.entities.length - 1 = i
  · have hrem : a.remove i =
        .ok ({ a with
                component_storages := a.component_storages.map fun s =>
                  { s with storage := listSwapRemove s.storage i
                           meta := { added_entities := listSwapRemove s.meta.added_entities i
                                     mutated_entities := listSwapRemove s.meta.mutated_entities i } }
                entities := a.entities.dropLast }, none) := by
      rw [hrem0, if_pos hcase]
    refine ⟨_, none, hrem, ?_, fun _ => rfl, fun hlt => absurd hcase (by omega)⟩
    show a.entities.dropLast.length + 1 = a.len
    rw [List.length_dropLast, hlen]
    omega
  · have hi1 : i + 1 < a.entities.length := by rw [hlen] at hi; omega
    have hget : (listSwapRemove a.entities i)[i]? = a.entities[a.entities.length - 1]? :=
      listSwapRemove_get?_lt _ _ hi1
    have hlast : a.entities[a.entities.length - 1]? =
        some (a.entities.getD (a.len - 1) 0) := by
      have hlt : a.entities.length - 1 < a.entities.length := by omega
      rw [List.getElem?_eq_getElem hlt, hlen, List.getD_eq_getElem _ _ hlt]
    have hrem : a.remove i =
        .ok ({ a with
                component_storages := a.component_storages.map fun s =>
                  { s with storage := listSwapRemove s.storage i
                           meta := { added_entities := listSwapRemove s.meta.added_entities i
                                     mutated_entities := listSwapRemove s.meta.mutated_entities i } }
                entities := listSwapRemove a.entities i },
             some (a.entities.getD (a.len - 1) 0)) := by
      rw [hrem0, if_neg hcase, hget, hlast]
    refine ⟨_, _, hrem, ?_, fun heq => absurd heq (by omega), fun _ => ⟨rfl, ?_⟩⟩
    · show (listSwapRemove a.entities i).length + 1 = a.len
      rw [listSwapRemove_length _ _ (by omega), hlen]
      omega
    · show (listSwapRemove a.entities i)[i]? = some (a.entities.getD (a.len - 1) 0)
      rw [hget, hlast]

/-- C2 witness: `remove_swap_relocation` applied to the concrete two-row Group
`c2Arch` at row 0. -/
theorem remove_swap_relocation_witness :
    c2Arch.alignedB = true ∧ 0 < c2Arch.len ∧
      (∃ a' r, c2Arch.remove 0 = .ok (a', r)
        ∧ a'.len + 1 = c2Arch.len
        ∧ (0 + 1 = c2Arch.len → r = none)
        ∧ (0 + 1 < c2Arch.len →
            r = some (c2Arch.entities.getD (c2Arch.len - 1) 0)
              ∧ a'.entities[0]? = some (c2Arch.entities.getD (c2Arch.len - 1) 0))) :=
  ⟨by decide, by decide, remove_swap_relocation c2Arch 0 (by decide) (by decide)⟩

/-- C1: the claimed row-alignment invariant is violated by
`Archetype::move_to`.  Moving the single (completed) row of the aligned Group
`c1Src` into `c1Dst` empties the source entity array and the source column
storage, but both source flag arrays keep length 1: unlike
`Archetype::remove`, `move_to` never swap-removes the `added_entities` and
`mutated_entities` arrays, so the source Group ends up misaligned. -/
theorem move_to_breaks_flag_alignment :
    c1Src.alignedB = true
    ∧ (Archetype.move_to c1Src 0 c1Dst true).toOption.map
        (fun r => (r.1.entities.length,
                   r.1.component_storages.map fun s => s.storage.length,
                   r.1.component_storages.map fun s => s.meta.added_entities.length,
                   r.1.component_storages.map fun s => s.meta.mutated_entities.length,
                   r.1.alignedB))
      = some (0, [0], [1], [1], false) := by decide

/-- C3: `ArchetypeAccess::is_compatible` returns `true` exactly when neither
work unit writes a Group the other touches; consequently U1 (writes Group 0,
reads Group 1) is incompatible with U2 (reads Group 0) and compatible with U3
(writes only the disjoint Group 2), where U1, U2 and U3 are built by
`set_access_for_query` over the same three-Group world. -/
theorem is_compatible_readers_writers :
    (∀ A B : ArchetypeAccess,
        A.is_compatible B = true ↔
          ((∀ i, ¬(fbsContains A.mutable i = true ∧ fbsContains B.accessed i = true))
            ∧ (∀ i, ¬(fbsContains B.mutable i = true ∧ fbsContains A.accessed i = true))))
    ∧ accessU1.is_compatible accessU2 = false
    ∧ accessU1.is_compatible accessU3 = true := by
  refine ⟨fun A B => ?_, by decide, by decide⟩
  unfold ArchetypeAccess.is_compatible
  rw [Bool.and_eq_true, fbsIsDisjoint_iff, fbsIsDisjoint_iff]
  constructor
  · rintro ⟨h1, h2⟩
    exact ⟨h1, fun i hc => h2 i ⟨hc.2, hc.1⟩⟩
  · rintro ⟨h1, h2⟩
    exact ⟨h1, fun i hc => h2 i ⟨hc.2, hc.1⟩⟩

/-- C3 witness: the compatibility equivalence instantiated at the concrete
work units U1 and U2. -/
theorem is_compatible_readers_writers_witness :
    accessU1.is_compatible accessU2 = true ↔
      ((∀ i, ¬(fbsContains accessU1.mutable i = true
          ∧ fbsContains accessU2.accessed i = true))
        ∧ (∀ i, ¬(fbsContains accessU2.mutable i = true
            ∧ fbsContains accessU1.accessed i = true))) :=
  is_compatible_readers_writers.1 accessU1 accessU2

/-- C4: a fresh row created by `Archetype::allocate` followed by exactly one
`insert_dynamic` on the only column leaves the added flag of that row `false`
(the claim says `true`): `allocate` pushes `false` and `insert_dynamic` never
touches the flag arrays.  The pre-existing row's flag (set to `true` in the
fixture) is unchanged, and the Group stays aligned. -/
theorem allocate_insert_leaves_added_false :
    ((c4Arch.allocate 2).1.insert_dynamic 0 9).toOption.map
        (fun a => (a.entities,
                   a.component_storages.map fun s => s.meta.added_entities,
                   a.alignedB))
      = some ([1, 2], [[true, false]], true) := by decide

/-- C5: `FetchMut::next` hands out a `Mut` reference to the current row
without changing any mutated flag; dereferencing that reference for writing
(`Mut::deref_mut`) sets the mutated flag of exactly that row, leaving every
other row's flag and the array length unchanged. -/
theorem deref_mut_sets_exactly_one_row (f : FetchMut) (flags : List Bool)
    (h : f.ptrM < flags.length) :
    (f.next flags).2.1 = flags
      ∧ (f.next flags).2.2 = { value := f.ptrC, mutated := f.ptrM }
      ∧ (Mut.deref_mut (f.next flags).2.2 flags).getD f.ptrM false = true
      ∧ (∀ j, j ≠ f.ptrM →
          (Mut.deref_mut (f.next flags).2.2 flags).getD j false = flags.getD j false)
      ∧ (Mut.deref_mut (f.next flags).2.2 flags).length = flags.length := by
  refine ⟨rfl, rfl, ?_, ?_, by simp [Mut.deref_mut, FetchMut.next]⟩
  · simp [Mut.deref_mut, FetchMut.next, List.getD_eq_getElem?_getD,
      List.getElem?_set_self, h]
  · intro j hj
    simp [Mut.deref_mut, FetchMut.next, List.getD_eq_getElem?_getD,
      List.getElem?_set_ne (Ne.symm hj)]

/-- C5 witness: `deref_mut_sets_exactly_one_row` applied to a cursor at row 0
over the two-row flag array `c5Flags`. -/
theorem deref_mut_sets_exactly_one_row_witness :
    c5Fetch.ptrM < c5Flags.length ∧
      ((c5Fetch.next c5Flags).2.1 = c5Flags
        ∧ (c5Fetch.next c5Flags).2.2 = { value := c5Fetch.ptrC, mutated := c5Fetch.ptrM }
        ∧ (Mut.deref_mut (c5Fetch.next c5Flags).2.2 c5Flags).getD c5Fetch.ptrM false = true
        ∧ (∀ j, j ≠ c5Fetch.ptrM →
            (Mut.deref_mut (c5Fetch.next c5Flags).2.2 c5Flags).getD j false
              = c5Flags.getD j false)
        ∧ (Mut.deref_mut (c5Fetch.next c5Flags).2.2 c5Flags).length = c5Flags.length) :=
  ⟨by decide, deref_mut_sets_exactly_one_row c5Fetch c5Flags (by decide)⟩

/-- C6: every borrow handle is strictly single-use.  For `QueryBorrow`,
`QueryBorrowChecked` and `DynamicQueryBorrow`, any iteration entry point on a
fresh handle succeeds and marks it borrowed, and any entry point on an
already-borrowed handle panics with the reuse message instead of returning a
value-level error. -/
theorem borrow_handles_single_use :
    (∀ e1 e2 : QBEntry,
        QueryBorrow.run e1 BorrowHandle.new = .ok { borrowed := true }
          ∧ QueryBorrow.run e2 { borrowed := true }
              = .error "called QueryBorrow::iter twice on the same borrow; construct a new query instead")
    ∧ (∀ e1 e2 : QBCEntry,
        QueryBorrowChecked.run e1 BorrowHandle.new = .ok { borrowed := true }
          ∧ QueryBorrowChecked.run e2 { borrowed := true }
              = .error "called QueryBorrowChecked::iter twice on the same borrow; construct a new query instead")
    ∧ (DynamicQueryBorrow.iter_mut BorrowHandle.new = .ok { borrowed := true }
        ∧ DynamicQueryBorrow.iter_mut { borrowed := true }
            = .error "call iter_mut on query multiple times") := by
  refine ⟨fun e1 e2 => ?_, fun e1 e2 => ?_, ⟨rfl, rfl⟩⟩
  · cases e1 <;> cases e2 <;> exact ⟨rfl, rfl⟩
  · cases e1 <;> cases e2 <;> exact ⟨rfl, rfl⟩

/-- C6 witness: `borrow_handles_single_use` at the concrete entry points
`iter` and `iter_batched 32` of `QueryBorrow`. -/
theorem borrow_handles_single_use_witness :
    QueryBorrow.run .iter BorrowHandle.new = .ok { borrowed := true }
      ∧ QueryBorrow.run (.iterBatched 32) { borrowed := true }
          = .error "called QueryBorrow::iter twice on the same borrow; construct a new query instead" :=
  borrow_handles_single_use.1 .iter (.iterBatched 32)

/-- C7: the SoA batch spawn performs no equal-length check.  With input
vectors of lengths 2 and 1 it completes without any error: the last vector's
length (1) silently becomes the row count, one entity is allocated, and only
the first value of the longer vector is copied (the second is dropped) — no
fail-fast error occurs. -/
theorem soa_spawn_ignores_length_mismatch :
    soaColA.vals.length = 2 ∧ soaColB.vals.length = 1
    ∧ (soaSpawn2 soaColA soaColB World.empty).toOption.map
        (fun r => (r.2.entity_count, r.2.writes,
                   r.1.archetypes.map fun a => a.entities.length))
      = some (1, [(0, [11]), (1, [21])], [1]) := by decide

/-- C8 counterexample: the invalid dynamic query of the repository's own
`invalid_query_panics` test — descriptor 101 in both lists — is built by the
ordinary construction path (`Default` plus public-field pushes) without any
validation or panic; the panic only happens later, in `get_fetch`. -/
theorem dynamic_query_construction_unvalidated :
    ((DynamicQuery.default.pushImmutable c8Info1).pushMutable c8Info2).pushMutable c8Info1
        = c8Query
    ∧ c8Query.dupFree = false
    ∧ c8Query.get_fetch (Archetype.new []) 0 = .error dupPanicMsg := by decide

/-- C8 (amended): the duplicate validation lives in `DynamicQuery::get_fetch`:
a query whose id lists overlap or repeat makes every `get_fetch` panic before
any fetch is produced, and a duplicate-free query never triggers that panic. -/
theorem get_fetch_validates_duplicates (q : DynamicQuery) (a : Archetype) (off : Nat) :
    (q.dupFree = false → q.get_fetch a off = .error dupPanicMsg)
      ∧ (q.dupFree = true → ∃ r, q.get_fetch a off = .ok r) := by
  constructor
  · intro h
    unfold DynamicQuery.get_fetch
    simp [h]
  · intro h
    unfold DynamicQuery.get_fetch
    rw [if_pos h]
    dsimp only
    split
    · exact ⟨_, rfl⟩
    · exact ⟨_, rfl⟩

/-- C8 witness: `get_fetch_validates_duplicates` applied to the invalid query
`c8Query` and to the duplicate-free query `c8ValidQuery`. -/
theorem get_fetch_validates_duplicates_witness :
    (c8Query.dupFree = false ∧ c8Query.get_fetch (Archetype.new []) 5 = .error dupPanicMsg)
      ∧ (c8ValidQuery.dupFree = true
        ∧ ∃ r, c8ValidQuery.get_fetch (Archetype.new []) 5 = .ok r) :=
  ⟨⟨by decide, (get_fetch_validates_duplicates c8Query (Archetype.new []) 5).1 (by decide)⟩,
   ⟨by decide, (get_fetch_validates_duplicates c8ValidQuery (Archetype.new []) 5).2 (by decide)⟩⟩

/-- C9: on a Group lacking the requested component type (the fixture Group
stores only type 1, type 0 with type name A is requested), `Mut::new` returns
the value-level `MissingComponent` result naming the type, but the tuple
implementation of `Bundle::get` panics through `Option::unwrap` instead of
returning its declared `MissingComponent` error. -/
theorem bundle_get_panics_on_missing_component :
    bundleGet (Archetype.new [1]) [0] 0 = .error unwrapPanicMsg
    ∧ Mut.new (Archetype.new [1]) 0 "A" 0 = .error { name := "A" } := by decide

/-- C10: `DynamicQuery::access` over-approximates iteration: whenever
`get_fetch` produces a fetch, `access` is `some`; whenever any listed
descriptor is absent (and the query is duplicate-free), `get_fetch` yields no
fetch; and on the concrete query `c10Query` over `c10Arch` the access analysis
reports `Read` although the iterator never visits that Group. -/
theorem dynamic_access_overapproximates_fetch (q : DynamicQuery) (a : Archetype) :
    ((∃ f, q.get_fetch a 0 = .ok (some f)) → (q.access a).isSome = true)
      ∧ ((q.immutable ++ q.mutable).any (fun c => !(a.has_component c.id)) = true →
          q.dupFree = true → q.get_fetch a 0 = .ok none)
      ∧ (c10Query.access c10Arch = some .Read
          ∧ c10Query.get_fetch c10Arch 0 = .ok none) := by
  refine ⟨?_, ?_, by decide, by decide⟩
  · rintro ⟨f, hf⟩
    by_cases hd : q.dupFree = true
    · unfold DynamicQuery.get_fetch at hf
      rw [if_pos hd] at hf
      dsimp only at hf
      by_cases hmi : ((dynFetchLoop a 0 q.immutable).2.1
          || (dynFetchLoop a 0 q.mutable).2.1) = true
      · rw [dynAccess_isSome, List.any_append]
        rw [dynFetchLoop_matches, dynFetchLoop_matches] at hmi
        exact hmi
      · simp only [Bool.not_eq_true] at hmi
        rw [hmi] at hf
        simp at hf
    · unfold DynamicQuery.get_fetch at hf
      rw [if_neg hd] at hf
      simp at hf
  · intro habs hd
    unfold DynamicQuery.get_fetch
    rw [if_pos hd]
    dsimp only
    have hmiss : ((dynFetchLoop a 0 q.immutable).2.2
        || (dynFetchLoop a 0 q.mutable).2.2) = true := by
      rw [dynFetchLoop_missing, dynFetchLoop_missing, ← List.any_append]
      exact habs
    simp [hmiss]

/-- C10 witness: `dynamic_access_overapproximates_fetch` applied to the
concrete query `c10Query` and Group `c10Arch`, discharging the absence and
duplicate-freedom hypotheses there. -/
theorem dynamic_access_overapproximates_fetch_witness :
    ((c10Query.immutable ++ c10Query.mutable).any
        (fun c => !(c10Arch.has_component c.id)) = true)
      ∧ c10Query.dupFree = true
      ∧ c10Query.get_fetch c10Arch 0 = .ok none :=
  ⟨by decide, by decide,
   (dynamic_access_overapproximates_fetch c10Query c10Arch).2.1 (by decide) (by decide)⟩

end BevyEcs
